import Mathlib

/-!
# Verification of the admission-control / batch-dispatch subsystem of `bot.py`

This file gives a shallow embedding of the admission-control subsystem of
the Telegram bot in `src/bot.py`:

* the module constants `BATCH_SIZE` and `COOLDOWN` (bot.py lines 20-21);
* the admission gate inside the `search` handler (bot.py lines 1911-1927);
* the pre-admission checks of `search` (bot.py lines 1881-1907);
* the admitted-path work and its `try/except/finally` release
  (bot.py lines 1929-1977);
* the dispatch loop `batch_worker` (bot.py lines 437-460);
* the per-request processor `process_user_request` (bot.py lines 462-471).

Shared mutable state (`ACTIVE_USERS`, `WAITING_QUEUE`) is modelled as an
explicit record; `ACTIVE_USERS` is a Python `int`, hence `Int` here, so that
non-negativity is a proved invariant rather than an assumption.  The
interleaving of the concurrent tasks (many `search` coroutines, one
`batch_worker`, many `process_user_request` finalizers), all serialized by
`BATCH_LOCK`, is modelled as a labelled transition system whose atomic steps
are exactly the lock-protected regions of the source (micro-steps for the
pop-and-increment loop of `batch_worker`, which runs under a single lock
hold).  Side effects (Telegram I/O, sleeps, lock operations, counter
mutations) are recorded as action traces so that lock discipline and
increment/decrement balance can be stated.
-/

namespace FreeBackup

/-- bot.py line 21: `BATCH_SIZE = 30`. -/
def BATCH_SIZE : Nat := 30

/-- bot.py line 20: `COOLDOWN = 90` (seconds). -/
def COOLDOWN : Nat := 90

/-- The shared mutable admission state: `ACTIVE_USERS` (a Python `int`,
bot.py line 25) and `WAITING_QUEUE` (an `asyncio.Queue`, bot.py line 26,
modelled as a list whose head is the front of the queue). -/
structure BotState where
  activeUsers : Int
  waitingQueue : List Nat
deriving Repr, DecidableEq

/-- Result of the admission gate: either admitted immediately, or queued
with the reported 1-based position. -/
inductive AdmitResult where
  | admitted
  | queued (position : Nat)
deriving Repr, DecidableEq

/-- Observable actions of the subsystem, used to record traces:
lock operations on `BATCH_LOCK`, mutations of `ACTIVE_USERS`, queue
insertion, sleeps (in milliseconds), Telegram platform calls, logging,
and task spawning. -/
inductive Act where
  | acquire
  | release
  | incr
  | decr
  | enqueuePut (uid : Nat)
  | sleepMs (ms : Nat)
  | sendMessage
  | deleteMessage
  | copyContent
  | copyAd
  | scheduleDelete
  | recordSearch
  | logError
  | spawnTask (uid : Nat)
deriving Repr, DecidableEq

/-- The admission gate of `search`, bot.py lines 1911-1927, executed under
`BATCH_LOCK`.  If `ACTIVE_USERS >= BATCH_SIZE` the requester id is `put`
on `WAITING_QUEUE`, the reported position is `WAITING_QUEUE.qsize()` read
immediately after the `put` (line 1914), a queue-position message is sent,
the coroutine sleeps 5 s, the message is deleted, and `search` returns —
all before the `async with` block releases the lock.  Otherwise
`ACTIVE_USERS` is incremented and the lock is released.  Returns the action
trace, the gate result, and the new state. -/
def searchGate (uid : Nat) (s : BotState) : List Act × AdmitResult × BotState :=
  if s.activeUsers ≥ (BATCH_SIZE : Int) then
    let q := s.waitingQueue ++ [uid]
    ([Act.acquire, Act.enqueuePut uid, Act.sendMessage, Act.sleepMs 5000,
      Act.deleteMessage, Act.release],
     AdmitResult.queued q.length,
     { s with waitingQueue := q })
  else
    ([Act.acquire, Act.incr, Act.release],
     AdmitResult.admitted,
     { s with activeUsers := s.activeUsers + 1 })

/-- The pop loop of `batch_worker`, bot.py lines 449-455: iterate `slots`
times; each iteration tries `WAITING_QUEUE.get_nowait()`, appends the id to
`users_to_process` and increments `ACTIVE_USERS`; an `asyncio.QueueEmpty`
breaks the loop.  Returns `(users_to_process, remaining queue, new
ACTIVE_USERS)`. -/
def popLoop : Nat → List Nat → Int → List Nat × List Nat × Int
  | 0, q, a => ([], q, a)
  | n + 1, q, a =>
    match q with
    | [] => ([], [], a)
    | u :: rest =>
      let r := popLoop n rest (a + 1)
      (u :: r.1, r.2.1, r.2.2)

/-- Outcome of one iteration of the `batch_worker` loop body: either the
no-capacity branch (sleep 0.5 s and `continue`) or a dispatch of the popped
user ids. -/
inductive WorkerOutcome where
  | noCapacity
  | dispatched (users : List Nat)
deriving Repr, DecidableEq

/-- One iteration of the `batch_worker` loop body, bot.py lines 441-458
(the state transformation; the whole region runs under `BATCH_LOCK`).
If `ACTIVE_USERS >= BATCH_SIZE` nothing changes; otherwise
`slots = BATCH_SIZE - ACTIVE_USERS` ids are popped (at most) and
`asyncio.create_task(process_user_request ...)` is spawned for each. -/
def batchWorkerIter (s : BotState) : WorkerOutcome × BotState :=
  if s.activeUsers ≥ (BATCH_SIZE : Int) then
    (WorkerOutcome.noCapacity, s)
  else
    let slots := ((BATCH_SIZE : Int) - s.activeUsers).toNat
    let r := popLoop slots s.waitingQueue s.activeUsers
    (WorkerOutcome.dispatched r.1, ⟨r.2.2, r.2.1⟩)

/-- The action trace of one iteration of the `batch_worker` loop body,
bot.py lines 440-460.  In the no-capacity branch the `await
asyncio.sleep(0.5)` at line 443 happens before `continue` exits the
`async with BATCH_LOCK` block, i.e. the 0.5 s sleep occurs while the lock
is still held.  In the dispatch branch the pops (each incrementing
`ACTIVE_USERS`) and the `create_task` spawns all happen under the lock,
and the 0.1 s idle sleep at line 460 happens after release. -/
def batchWorkerIterTrace (s : BotState) : List Act :=
  if s.activeUsers ≥ (BATCH_SIZE : Int) then
    [Act.acquire, Act.sleepMs 500, Act.release]
  else
    let slots := ((BATCH_SIZE : Int) - s.activeUsers).toNat
    let r := popLoop slots s.waitingQueue s.activeUsers
    [Act.acquire] ++ r.1.map (fun _ => Act.incr) ++ r.1.map Act.spawnTask
      ++ [Act.release, Act.sleepMs 100]

/-- The successful-path body of the admitted branch of `search`, bot.py
lines 1930-1970: record the search (`update_user_search`), optionally copy
a rotating ad, schedule its deletion and sleep 10 s (lines 1933-1947), send
the "searching" overlay, copy the movie message, delete the overlay, and
schedule auto-deletion of the delivered message. -/
def searchWorkOk (hasAd : Bool) : List Act :=
  [Act.recordSearch]
    ++ (if hasAd then [Act.copyAd, Act.scheduleDelete, Act.sleepMs 10000] else [])
    ++ [Act.sendMessage, Act.copyContent, Act.deleteMessage, Act.scheduleDelete]

/-- The admitted path of `search` after the gate, bot.py lines 1911-1977:
the gate increments `ACTIVE_USERS` under the lock; then the work runs in a
`try` block (outside the lock); if it raises, the `except` at lines
1972-1974 logs and sends an error reply; in all cases the `finally` at
lines 1975-1977 re-acquires the lock and decrements `ACTIVE_USERS`.
`body` is the portion of the `try` block that actually executed, and
`raised` tells whether it ended by raising. -/
def searchAdmittedTrace (body : List Act) (raised : Bool) : List Act :=
  [Act.acquire, Act.incr, Act.release]
    ++ body
    ++ (if raised then [Act.logError, Act.sendMessage] else [])
    ++ [Act.acquire, Act.decr, Act.release]

/-- `process_user_request`, bot.py lines 462-471: the `try` body is only
`await asyncio.sleep(0.1)`; an exception is caught and printed; the
`finally` acquires `BATCH_LOCK` and decrements `ACTIVE_USERS`.  `raised`
tells whether the body raised (in which case the sleep was interrupted and
the error was logged). -/
def processUserRequestTrace (raised : Bool) : List Act :=
  (if raised then [Act.logError] else [Act.sleepMs 100])
    ++ [Act.acquire, Act.decr, Act.release]

/-- Scans a trace and reports whether a sleep action occurs while the lock
is held; the second argument is the lock state at the start of the
trace. -/
def sleepsWhileHeld : List Act → Bool → Bool
  | [], _ => false
  | Act.acquire :: t, _ => sleepsWhileHeld t true
  | Act.release :: t, _ => sleepsWhileHeld t false
  | Act.sleepMs _ :: t, held => held || sleepsWhileHeld t held
  | _ :: t, held => sleepsWhileHeld t held

/-- Telegram platform calls (message I/O). -/
def isPlatformCall : Act → Bool
  | Act.sendMessage => true
  | Act.deleteMessage => true
  | Act.copyContent => true
  | Act.copyAd => true
  | _ => false

/-- Actions that constitute the actual per-request work described for the
request processor: content lookup/delivery, ad delivery, the "searching"
placeholder, cleanup scheduling, search recording. -/
def isRequestWork : Act → Bool
  | Act.sendMessage => true
  | Act.deleteMessage => true
  | Act.copyContent => true
  | Act.copyAd => true
  | Act.scheduleDelete => true
  | Act.recordSearch => true
  | _ => false

/-- Number of occurrences of an action in a trace. -/
def countAct (a : Act) (tr : List Act) : Nat :=
  tr.countP (fun x => decide (x = a))

/-- Python exceptions relevant to the subsystem: `asyncio.QueueEmpty`
(raised by `get_nowait`, caught at bot.py line 454) and any other
exception. -/
inductive PyErr where
  | queueEmpty
  | other (msg : String)
deriving Repr, DecidableEq

/-- The spawn loop of `batch_worker`, bot.py lines 457-458: call the
handoff (`asyncio.create_task(process_user_request user_id)`) for each
popped id.  No `try/except` surrounds this loop in the source, so an
exception from the handoff propagates. -/
def spawnAll (handoff : Nat → Except PyErr Unit) : List Nat → Except PyErr Unit
  | [] => Except.ok ()
  | u :: us =>
    match handoff u with
    | Except.ok _ => spawnAll handoff us
    | Except.error e => Except.error e

/-- One iteration of the `batch_worker` loop body with a possibly-raising
handoff, bot.py lines 440-460.  The only `try/except` in the body (lines
450-455) wraps `get_nowait` and catches exactly `asyncio.QueueEmpty`
(already encoded in `popLoop`'s early stop); the handoff at line 458 is
unprotected, so its exception propagates out of the loop body and kills
the `batch_worker` task. -/
def batchWorkerIterE (handoff : Nat → Except PyErr Unit) (s : BotState) :
    Except PyErr (WorkerOutcome × BotState) :=
  if s.activeUsers ≥ (BATCH_SIZE : Int) then
    Except.ok (WorkerOutcome.noCapacity, s)
  else
    let slots := ((BATCH_SIZE : Int) - s.activeUsers).toNat
    let r := popLoop slots s.waitingQueue s.activeUsers
    match spawnAll handoff r.1 with
    | Except.ok _ => Except.ok (WorkerOutcome.dispatched r.1, ⟨r.2.2, r.2.1⟩)
    | Except.error e => Except.error e

/-- A handoff that raises a non-`QueueEmpty` exception when asked to start
the unit of work for user 42. -/
def failingHandoff : Nat → Except PyErr Unit :=
  fun u => if u = 42 then Except.error (PyErr.other "task spawn failed") else Except.ok ()

/-- A handoff that never raises. -/
def okHandoff : Nat → Except PyErr Unit := fun _ => Except.ok ()

/-- The inputs to the pre-admission checks of `search`, bot.py lines
1881-1907: whether the message text starts with `/`, maintenance mode,
ownership, the force-join verification result, the seconds elapsed since
the user's last recorded search (`None` if no record), and whether
`find_movie_by_code` found a record for the stripped upper-cased code. -/
structure SearchCtx where
  isCommand : Bool
  maintenanceOn : Bool
  isOwner : Bool
  forceJoinOk : Bool
  secondsSinceLast : Option Nat
  movieFound : Bool
deriving Repr, DecidableEq

/-- How `search` exits before reaching the admission gate, or the fact that
it reached the gate. -/
inductive SearchExit where
  | ignoredCommand
  | maintenanceClosed
  | forceJoinPrompt
  | cooldownWait
  | codeNotFound
  | reachedGate
deriving Repr, DecidableEq

/-- The pre-admission checks of `search`, in source order (bot.py lines
1882-1907): command messages are ignored; maintenance mode blocks
non-owners; a failed force-join check prompts to join; a non-owner whose
last search was less than `COOLDOWN` seconds ago is told to wait; a code
with no matching movie record gets a not-found reply; otherwise control
reaches the admission gate at line 1911. -/
def searchPre (c : SearchCtx) : SearchExit :=
  if c.isCommand then SearchExit.ignoredCommand
  else if c.maintenanceOn && !c.isOwner then SearchExit.maintenanceClosed
  else if !c.forceJoinOk then SearchExit.forceJoinPrompt
  else if !c.isOwner &&
      (match c.secondsSinceLast with
       | some t => decide (t < COOLDOWN)
       | none => false) then SearchExit.cooldownWait
  else if !c.movieFound then SearchExit.codeNotFound
  else SearchExit.reachedGate

/-- `search` from entry up to and including the admission gate: every early
exit returns without touching `ACTIVE_USERS` or `WAITING_QUEUE`; only when
all pre-admission checks pass does the gate at bot.py lines 1911-1927 run. -/
def searchUpToGate (c : SearchCtx) (uid : Nat) (s : BotState) : SearchExit × BotState :=
  match searchPre c with
  | SearchExit.reachedGate => (SearchExit.reachedGate, (searchGate uid s).2.2)
  | e => (e, s)

/-- Phase of the `batch_worker` task: `idle` when it does not hold
`BATCH_LOCK`, `popping r` when it is inside the locked pop loop with `r`
iterations of `range(slots)` remaining. -/
inductive WPhase where
  | idle
  | popping (remaining : Nat)
deriving Repr, DecidableEq

/-- Global state of the interleaved system: the shared `ACTIVE_USERS` and
`WAITING_QUEUE`, the number of admitted-but-not-yet-finalized requests
(tasks whose `finally` decrement has not run), the worker phase, and two
ghost histories: all ids ever enqueued and all ids ever popped by the
dispatcher, in order. -/
structure SysState where
  active : Int
  queue : List Nat
  inflight : Nat
  phase : WPhase
  enqueued : List Nat
  dispatched : List Nat
deriving Repr, DecidableEq

/-- The initial state at process startup: `ACTIVE_USERS = 0`, empty queue,
no in-flight requests, worker idle. -/
def initState : SysState :=
  { active := 0, queue := [], inflight := 0, phase := WPhase.idle,
    enqueued := [], dispatched := [] }

/-- Atomic steps of the interleaved system.  `gate uid` is the locked
check-and-mutate of `search` (bot.py lines 1911-1927); `workerEnter` is the
worker acquiring the lock and checking capacity (lines 441-446);
`popOne`/`popDone` are the micro-steps of the locked pop loop (lines
449-455); `finalize` is a `finally` block acquiring the lock and
decrementing (lines 470-471 or 1976-1977).  Steps that need `BATCH_LOCK`
while the worker is mid-pop are disabled, mirroring mutual exclusion. -/
inductive Label where
  | gate (uid : Nat)
  | workerEnter
  | popOne
  | popDone
  | finalize
deriving Repr, DecidableEq

/-- The transition function: `none` when the step is not enabled in the
given state. -/
def applyStep (s : SysState) : Label → Option SysState
  | Label.gate uid =>
    match s.phase with
    | WPhase.idle =>
      if (BATCH_SIZE : Int) ≤ s.active then
        some { s with queue := s.queue ++ [uid], enqueued := s.enqueued ++ [uid] }
      else
        some { s with active := s.active + 1, inflight := s.inflight + 1 }
    | _ => none
  | Label.workerEnter =>
    match s.phase with
    | WPhase.idle =>
      if (BATCH_SIZE : Int) ≤ s.active then
        some s
      else
        some { s with phase := WPhase.popping ((BATCH_SIZE : Int) - s.active).toNat }
    | _ => none
  | Label.popOne =>
    match s.phase, s.queue with
    | WPhase.popping (r + 1), u :: rest =>
      some { s with queue := rest, active := s.active + 1, inflight := s.inflight + 1,
                    phase := WPhase.popping r, dispatched := s.dispatched ++ [u] }
    | _, _ => none
  | Label.popDone =>
    match s.phase with
    | WPhase.popping r =>
      if r = 0 ∨ s.queue = [] then some { s with phase := WPhase.idle } else none
    | _ => none
  | Label.finalize =>
    match s.phase with
    | WPhase.idle =>
      if s.inflight = 0 then none
      else some { s with active := s.active - 1, inflight := s.inflight - 1 }
    | _ => none

/-- Run a list of steps from a state; fails if any step is disabled. -/
def runSteps (s : SysState) : List Label → Option SysState
  | [] => some s
  | l :: ls =>
    match applyStep s l with
    | some s' => runSteps s' ls
    | none => none

/-- A state is reachable if some interleaving of enabled steps leads to it
from the initial state. -/
def Reachable (s : SysState) : Prop :=
  ∃ ls : List Label, runSteps initState ls = some s

/-- The inductive invariant: `ACTIVE_USERS` equals the number of in-flight
admissions (hence is non-negative), never exceeds `BATCH_SIZE`, the
worker's remaining pop budget never allows exceeding `BATCH_SIZE`, and the
popped history followed by the current queue is exactly the enqueue
history. -/
def SysInv (s : SysState) : Prop :=
  s.active = (s.inflight : Int) ∧
  s.active ≤ (BATCH_SIZE : Int) ∧
  (∀ r : Nat, s.phase = WPhase.popping r → s.active + (r : Int) ≤ (BATCH_SIZE : Int)) ∧
  s.dispatched ++ s.queue = s.enqueued

/-- A demo interleaving: 30 direct admissions fill capacity, users 101 and
102 overflow into the queue, one admitted request finalizes, and the worker
then pops one id. -/
def demoLabels : List Label :=
  List.replicate 30 (Label.gate 0)
    ++ [Label.gate 101, Label.gate 102, Label.finalize,
        Label.workerEnter, Label.popOne, Label.popDone]

/-- The state reached by `demoLabels`. -/
def demoState : SysState :=
  { active := 30, queue := [102], inflight := 30, phase := WPhase.idle,
    enqueued := [101, 102], dispatched := [101] }

/-- Functional characterization of the pop loop: it pops exactly the first
`min n |q|` elements, leaves the rest, and has incremented `ACTIVE_USERS`
once per popped element. -/
theorem popLoop_spec (n : Nat) :
    ∀ (q : List Nat) (a : Int),
      (popLoop n q a).1 = q.take n ∧
      (popLoop n q a).2.1 = q.drop n ∧
      (popLoop n q a).2.2 = a + ((q.take n).length : Int) := by
  induction n with
  | zero => intro q a; simp [popLoop]
  | succ n ih =>
    intro q a
    cases q with
    | nil => simp [popLoop]
    | cons u rest =>
      obtain ⟨ih1, ih2, ih3⟩ := ih rest (a + 1)
      refine ⟨?_, ?_, ?_⟩
      · simp [popLoop, ih1]
      · simp [popLoop, ih2]
      · simp only [popLoop, ih3, List.take_succ_cons, List.length_cons]
        omega

/-- A non-raising handoff makes the spawn loop succeed. -/
theorem spawnAll_ok (handoff : Nat → Except PyErr Unit)
    (h : ∀ u : Nat, handoff u = Except.ok ()) :
    ∀ l : List Nat, spawnAll handoff l = Except.ok () := by
  intro l
  induction l with
  | nil => rfl
  | cons u us ih => simp [spawnAll, h u, ih]

/-- Actions that are neither lock operations nor sleeps do not affect the
held-sleep scan. -/
theorem sleepsWhileHeld_append_inert (l t : List Act) (held : Bool)
    (hl : ∀ a ∈ l, a ≠ Act.acquire ∧ a ≠ Act.release ∧ ∀ ms : Nat, a ≠ Act.sleepMs ms) :
    sleepsWhileHeld (l ++ t) held = sleepsWhileHeld t held := by
  induction l with
  | nil => rfl
  | cons a l ih =>
    have ha := hl a (List.mem_cons_self a l)
    have hrest : ∀ b ∈ l, b ≠ Act.acquire ∧ b ≠ Act.release ∧ ∀ ms : Nat, b ≠ Act.sleepMs ms :=
      fun b hb => hl b (List.mem_cons_of_mem a hb)
    cases a <;> simp_all [sleepsWhileHeld]

/-- The initial state satisfies the inductive invariant. -/
theorem sysInv_init : SysInv initState := by
  refine ⟨rfl, by decide, ?_, rfl⟩
  intro r hr
  simp [initState] at hr

/-- Every enabled step preserves the inductive invariant. -/
theorem sysInv_step {s s' : SysState} {l : Label} (hs : SysInv s)
    (h : applyStep s l = some s') : SysInv s' := by
  obtain ⟨a, q, fl, ph, en, di⟩ := s
  obtain ⟨h1, h2, h3, h4⟩ := hs
  simp only [SysInv] at h1 h2 h3 h4 ⊢
  cases l with
  | gate uid =>
    cases ph with
    | popping r => simp [applyStep] at h
    | idle =>
      simp only [applyStep] at h
      by_cases hc : (BATCH_SIZE : Int) ≤ a
      · rw [if_pos hc] at h
        injection h with h
        subst h
        refine ⟨h1, h2, ?_, ?_⟩
        · intro r hr
          exact absurd hr (by simp)
        · simp only
          rw [← List.append_assoc, h4]
      · rw [if_neg hc] at h
        injection h with h
        subst h
        refine ⟨?_, ?_, ?_, h4⟩
        · simp only
          omega
        · simp only
          omega
        · intro r hr
          exact absurd hr (by simp)
  | workerEnter =>
    cases ph with
    | popping r => simp [applyStep] at h
    | idle =>
      simp only [applyStep] at h
      by_cases hc : (BATCH_SIZE : Int) ≤ a
      · rw [if_pos hc] at h
        injection h with h
        subst h
        refine ⟨h1, h2, ?_, h4⟩
        intro r hr
        exact absurd hr (by simp)
      · rw [if_neg hc] at h
        injection h with h
        subst h
        refine ⟨h1, h2, ?_, h4⟩
        intro r hr
        simp only [WPhase.popping.injEq] at hr
        subst hr
        simp only
        omega
  | popOne =>
    cases ph with
    | idle => simp [applyStep] at h
    | popping r =>
      cases r with
      | zero => cases q <;> simp [applyStep] at h
      | succ r =>
        cases q with
        | nil => simp [applyStep] at h
        | cons u rest =>
          simp only [applyStep] at h
          injection h with h
          subst h
          have hb := h3 (r + 1) rfl
          refine ⟨?_, ?_, ?_, ?_⟩
          · simp only
            omega
          · simp only
            omega
          · intro r' hr'
            simp only [WPhase.popping.injEq] at hr'
            subst hr'
            simp only
            omega
          · simp only
            rw [List.append_assoc]
            simpa using h4
  | popDone =>
    cases ph with
    | idle => simp [applyStep] at h
    | popping r =>
      simp only [applyStep] at h
      by_cases hc : r = 0 ∨ q = []
      · rw [if_pos hc] at h
        injection h with h
        subst h
        refine ⟨h1, h2, ?_, h4⟩
        intro r' hr'
        exact absurd hr' (by simp)
      · rw [if_neg hc] at h
        cases h
  | finalize =>
    cases ph with
    | popping r => simp [applyStep] at h
    | idle =>
      simp only [applyStep] at h
      by_cases hc : fl = 0
      · rw [if_pos hc] at h
        cases h
      · rw [if_neg hc] at h
        injection h with h
        subst h
        refine ⟨?_, ?_, ?_, h4⟩
        · simp only
          omega
        · simp only
          omega
        · intro r hr
          exact absurd hr (by simp)

/-- Running any list of enabled steps preserves the invariant. -/
theorem sysInv_runSteps {s s' : SysState} {ls : List Label} (hs : SysInv s)
    (h : runSteps s ls = some s') : SysInv s' := by
  induction ls generalizing s with
  | nil =>
    simp only [runSteps, Option.some.injEq] at h
    subst h
    exact hs
  | cons l ls ih =>
    simp only [runSteps] at h
    cases hstep : applyStep s l with
    | none => rw [hstep] at h; cases h
    | some s1 =>
      rw [hstep] at h
      exact ih (sysInv_step hs hstep) h

/-- Every reachable state satisfies the inductive invariant. -/
theorem reachable_sysInv {s : SysState} (h : Reachable s) : SysInv s := by
  obtain ⟨ls, hr⟩ := h
  exact sysInv_runSteps sysInv_init hr

/-- C2: in every reachable state of the admission subsystem —
including mid-pop states of the dispatch loop (`WPhase.popping`) and the
gate's atomic check-then-increment — `0 ≤ ACTIVE_USERS ≤ BATCH_SIZE`. -/
theorem capacity_invariant (s : SysState) (h : Reachable s) :
    0 ≤ s.active ∧ s.active ≤ (BATCH_SIZE : Int) := by
  obtain ⟨h1, h2, -, -⟩ := reachable_sysInv h
  constructor
  · rw [h1]
    exact Int.natCast_nonneg s.inflight
  · exact h2

/-- C2 witness: the state after one direct admission is reachable and
satisfies the bounds. -/
theorem capacity_invariant_witness :
    Reachable { active := 1, queue := [], inflight := 1, phase := WPhase.idle,
                enqueued := [], dispatched := [] } ∧
    (0 ≤ ({ active := 1, queue := [], inflight := 1, phase := WPhase.idle,
            enqueued := [], dispatched := [] } : SysState).active ∧
     ({ active := 1, queue := [], inflight := 1, phase := WPhase.idle,
        enqueued := [], dispatched := [] } : SysState).active ≤ (BATCH_SIZE : Int)) :=
  ⟨⟨[Label.gate 5], by decide⟩,
   capacity_invariant _ ⟨[Label.gate 5], by decide⟩⟩

/-- C4: strict FIFO — in every reachable state the sequence of ids popped
by the dispatch loop is a prefix of the sequence of ids ever enqueued, so
the i-th requester to be enqueued is the i-th to be dispatched: if A is
enqueued strictly before B and both are dispatched, A is dispatched no
later than B. -/
theorem fifo_dispatch_order (s : SysState) (h : Reachable s) :
    s.dispatched <+: s.enqueued ∧
    ∀ i : Nat, i < s.dispatched.length → s.dispatched[i]? = s.enqueued[i]? := by
  obtain ⟨-, -, -, h4⟩ := reachable_sysInv h
  refine ⟨⟨s.queue, h4⟩, ?_⟩
  intro i hi
  rw [← h4]
  exact (List.getElem?_append_left hi).symm

/-- C4 witness: in the demo interleaving, user 101 (enqueued before 102)
is the first to be dispatched. -/
theorem fifo_dispatch_order_witness :
    demoState.dispatched <+: demoState.enqueued ∧
    demoState.dispatched[0]? = demoState.enqueued[0]? :=
  ⟨(fifo_dispatch_order demoState ⟨demoLabels, by decide⟩).1,
   (fifo_dispatch_order demoState ⟨demoLabels, by decide⟩).2 0 (by decide)⟩

/-- C3: when the gate queues a requester, the reported position is the
1-based queue length immediately after insertion; the requester is
appended at the back, sits at index `n - 1`, and exactly `n - 1` earlier
entries precede it. -/
theorem queued_position_correct (uid : Nat) (s : BotState) (n : Nat)
    (h : (searchGate uid s).2.1 = AdmitResult.queued n) :
    n = s.waitingQueue.length + 1 ∧
    (searchGate uid s).2.2.waitingQueue = s.waitingQueue ++ [uid] ∧
    (searchGate uid s).2.2.waitingQueue[n - 1]? = some uid ∧
    ((searchGate uid s).2.2.waitingQueue.take (n - 1)).length = n - 1 := by
  by_cases hc : s.activeUsers ≥ (BATCH_SIZE : Int)
  · simp only [searchGate, if_pos hc] at h ⊢
    injection h with h
    have hn : n = s.waitingQueue.length + 1 := by
      rw [← h]
      simp
    subst hn
    refine ⟨by trivial, by trivial, ?_, ?_⟩
    · simp
    · simp
  · simp only [searchGate, if_neg hc] at h
    cases h

/-- C3 witness: with capacity full and one user already waiting, user 7 is
reported at position 2, behind exactly one earlier entry. -/
theorem queued_position_correct_witness :
    2 = ([1] : List Nat).length + 1 ∧
    (searchGate 7 ⟨30, [1]⟩).2.2.waitingQueue = [1] ++ [7] ∧
    (searchGate 7 ⟨30, [1]⟩).2.2.waitingQueue[2 - 1]? = some 7 ∧
    ((searchGate 7 ⟨30, [1]⟩).2.2.waitingQueue.take (2 - 1)).length = 2 - 1 :=
  queued_position_correct 7 ⟨30, [1]⟩ 2 (by decide)

/-- C5: in a dispatch cycle with free capacity, the loop pops exactly
`min (BATCH_SIZE - ACTIVE_USERS) |queue|` ids — never more than
`BATCH_SIZE - ACTIVE_USERS`, stopping early only because the queue
emptied — takes them from the front, and `ACTIVE_USERS` grows by exactly
the number popped; moreover, in the micro-step system, each pop and its
increment happen in the same atomic step (not in a separate pass). -/
theorem dispatch_cycle_bound (s : BotState) (h : s.activeUsers < (BATCH_SIZE : Int)) :
    ∀ (users : List Nat) (s' : BotState),
      batchWorkerIter s = (WorkerOutcome.dispatched users, s') →
      users.length = min ((BATCH_SIZE : Int) - s.activeUsers).toNat s.waitingQueue.length ∧
      (users.length : Int) ≤ (BATCH_SIZE : Int) - s.activeUsers ∧
      users = s.waitingQueue.take ((BATCH_SIZE : Int) - s.activeUsers).toNat ∧
      s'.waitingQueue = s.waitingQueue.drop ((BATCH_SIZE : Int) - s.activeUsers).toNat ∧
      s'.activeUsers = s.activeUsers + users.length ∧
      (∀ (t : SysState) (rem u : Nat) (rest : List Nat),
        t.phase = WPhase.popping (rem + 1) → t.queue = u :: rest →
        applyStep t Label.popOne =
          some { t with queue := rest, active := t.active + 1, inflight := t.inflight + 1,
                        phase := WPhase.popping rem, dispatched := t.dispatched ++ [u] }) := by
  intro users s' heq
  simp only [batchWorkerIter] at heq
  rw [if_neg (not_le.mpr h)] at heq
  obtain ⟨hp1, hp2, hp3⟩ :=
    popLoop_spec ((BATCH_SIZE : Int) - s.activeUsers).toNat s.waitingQueue s.activeUsers
  injection heq with heq1 heq2
  injection heq1 with heq1
  subst heq1
  subst heq2
  refine ⟨?_, ?_, hp1, ?_, ?_, ?_⟩
  · rw [hp1, List.length_take]
  · rw [hp1, List.length_take]
    omega
  · exact hp2
  · rw [hp3, hp1]
  · intro t rem u rest hph hq
    obtain ⟨ta, tq, tf, tph, ten, tdi⟩ := t
    simp only at hph hq
    subst hph
    subst hq
    rfl

/-- C5 witness: with `ACTIVE_USERS = 28` and three waiting users, exactly
two are popped from the front and `ACTIVE_USERS` reaches 30. -/
theorem dispatch_cycle_bound_witness :
    ([5, 6] : List Nat).length
      = min ((BATCH_SIZE : Int) - (⟨28, [5, 6, 7]⟩ : BotState).activeUsers).toNat
          (⟨28, [5, 6, 7]⟩ : BotState).waitingQueue.length ∧
    (⟨30, [7]⟩ : BotState).activeUsers
      = (⟨28, [5, 6, 7]⟩ : BotState).activeUsers + ([5, 6] : List Nat).length :=
  ⟨(dispatch_cycle_bound ⟨28, [5, 6, 7]⟩ (by decide) [5, 6] ⟨30, [7]⟩ (by decide)).1,
   (dispatch_cycle_bound ⟨28, [5, 6, 7]⟩ (by decide) [5, 6] ⟨30, [7]⟩
      (by decide)).2.2.2.2.1⟩

/-- Counting distributes over trace concatenation. -/
theorem countAct_append (a : Act) (l₁ l₂ : List Act) :
    countAct a (l₁ ++ l₂) = countAct a l₁ + countAct a l₂ := by
  simp [countAct, List.countP_append]

/-- Mapping every element to `a` yields one occurrence of `a` per element. -/
theorem countAct_map_self (a : Act) (l : List Nat) :
    countAct a (l.map (fun _ => a)) = l.length := by
  induction l with
  | nil => rfl
  | cons u us ih =>
    simp only [List.map_cons, countAct, List.countP_cons] at ih ⊢
    rw [ih]
    simp

/-- Mapping through a function that never produces `a` yields no
occurrence of `a`. -/
theorem countAct_map_other (a : Act) (f : Nat → Act) (hf : ∀ u : Nat, f u ≠ a)
    (l : List Nat) : countAct a (l.map f) = 0 := by
  induction l with
  | nil => rfl
  | cons u us ih =>
    simp only [List.map_cons, countAct, List.countP_cons] at ih ⊢
    simp [ih, hf u]

/-- C1: slot accounting is balanced on every admission path.  A direct
admission in `search` produces exactly one increment and, whether the
delivery work returns or raises, exactly one decrement (the `finally` at
bot.py lines 1975-1977).  A `process_user_request` run decrements exactly
once whether or not its body raises (the `finally` at lines 469-471) and
never increments.  A dispatch cycle increments exactly once per popped
user (each of whom is handed one `process_user_request`), and the dispatch
loop itself never decrements. -/
theorem admission_slot_balance (body : List Act) (raised : Bool)
    (hb1 : countAct Act.incr body = 0) (hb2 : countAct Act.decr body = 0) :
    countAct Act.incr (searchAdmittedTrace body raised) = 1 ∧
    countAct Act.decr (searchAdmittedTrace body raised) = 1 ∧
    (∀ r : Bool, countAct Act.decr (processUserRequestTrace r) = 1 ∧
                 countAct Act.incr (processUserRequestTrace r) = 0) ∧
    (∀ (s : BotState) (users : List Nat) (s' : BotState),
       batchWorkerIter s = (WorkerOutcome.dispatched users, s') →
       countAct Act.incr (batchWorkerIterTrace s) = users.length ∧
       countAct Act.decr (batchWorkerIterTrace s) = 0 ∧
       s'.activeUsers = s.activeUsers + (users.length : Int)) := by
  refine ⟨?_, ?_, ?_, ?_⟩
  · cases raised <;>
      · rw [searchAdmittedTrace, countAct_append, countAct_append, countAct_append, hb1]
        decide
  · cases raised <;>
      · rw [searchAdmittedTrace, countAct_append, countAct_append, countAct_append, hb2]
        decide
  · intro r
    cases r <;> exact ⟨by decide, by decide⟩
  · intro s users s' heq
    simp only [batchWorkerIter] at heq
    by_cases hc : s.activeUsers ≥ (BATCH_SIZE : Int)
    · rw [if_pos hc] at heq
      simp at heq
    · rw [if_neg hc] at heq
      injection heq with heq1 heq2
      injection heq1 with heq1
      subst heq1
      subst heq2
      obtain ⟨hp1, hp2, hp3⟩ :=
        popLoop_spec ((BATCH_SIZE : Int) - s.activeUsers).toNat s.waitingQueue s.activeUsers
      refine ⟨?_, ?_, ?_⟩
      · simp only [batchWorkerIterTrace, if_neg hc]
        rw [countAct_append, countAct_append, countAct_append, countAct_map_self,
            countAct_map_other Act.incr Act.spawnTask (by intro u; simp)]
        simp [countAct]
      · simp only [batchWorkerIterTrace, if_neg hc]
        rw [countAct_append, countAct_append, countAct_append,
            countAct_map_other Act.decr (fun _ => Act.incr) (by intro u; simp),
            countAct_map_other Act.decr Act.spawnTask (by intro u; simp)]
        simp [countAct]
      · simp only
        rw [hp3, hp1]

/-- C1 witness: concrete balance check for a raising delivery path and a
two-user dispatch cycle. -/
theorem admission_slot_balance_witness :
    countAct Act.incr (searchAdmittedTrace (searchWorkOk true) true) = 1 ∧
    countAct Act.decr (searchAdmittedTrace (searchWorkOk true) true) = 1 ∧
    countAct Act.decr (processUserRequestTrace true) = 1 ∧
    countAct Act.incr (batchWorkerIterTrace ⟨28, [5, 6, 7]⟩) = ([5, 6] : List Nat).length :=
  ⟨(admission_slot_balance (searchWorkOk true) true (by decide) (by decide)).1,
   (admission_slot_balance (searchWorkOk true) true (by decide) (by decide)).2.1,
   ((admission_slot_balance (searchWorkOk true) true (by decide) (by decide)).2.2.1 true).1,
   ((admission_slot_balance (searchWorkOk true) true (by decide) (by decide)).2.2.2
      ⟨28, [5, 6, 7]⟩ [5, 6] ⟨30, [7]⟩ (by decide)).1⟩

/-- The dispatch branch of the worker holds the lock across the pops and
spawns but releases it before the 0.1 s idle sleep, so no sleep occurs
while the lock is held. -/
theorem sleepsWhileHeld_dispatch (us : List Nat) :
    sleepsWhileHeld
      ([Act.acquire] ++ us.map (fun _ => Act.incr) ++ us.map Act.spawnTask
        ++ [Act.release, Act.sleepMs 100]) false = false := by
  simp only [List.append_assoc, List.singleton_append]
  simp only [sleepsWhileHeld]
  show sleepsWhileHeld
      (us.map (fun _ => Act.incr)
        ++ (us.map Act.spawnTask ++ [Act.release, Act.sleepMs 100])) true = false
  rw [sleepsWhileHeld_append_inert]
  · rw [sleepsWhileHeld_append_inert]
    · decide
    · intro a ha
      simp only [List.mem_map] at ha
      obtain ⟨u, -, rfl⟩ := ha
      refine ⟨by simp, by simp, by intro ms; simp⟩
  · intro a ha
    simp only [List.mem_map] at ha
    obtain ⟨u, -, rfl⟩ := ha
    refine ⟨by simp, by simp, by intro ms; simp⟩

/-- C6 counterexample: with `ACTIVE_USERS = BATCH_SIZE` the dispatch
loop's no-capacity branch sleeps the 0.5 s delay while `BATCH_LOCK` is
still held — the `await asyncio.sleep(0.5)` at bot.py line 443 executes
before the `continue` exits the `async with` block — refuting the claim
that the loop releases the guard before sleeping the no-capacity delay. -/
theorem lock_released_before_sleep_cex :
    sleepsWhileHeld (batchWorkerIterTrace ⟨30, []⟩) false = true := by
  decide

/-- C6 amended: the guard is never held across the admitted path's
content-delivery work (including the 10 s ad sleep), and the dispatch
branch releases it before the 0.1 s idle sleep; but the no-capacity branch
of the dispatch loop sleeps 0.5 s while still holding the guard, and the
queued branch of `search` holds the guard across the queue-position
notification, a 5 s sleep, and the notification's deletion. -/
theorem lock_discipline_actual (hasAd raised : Bool) (uid : Nat) (s sFull : BotState)
    (hfree : s.activeUsers < (BATCH_SIZE : Int))
    (hfull : (BATCH_SIZE : Int) ≤ sFull.activeUsers) :
    sleepsWhileHeld (searchAdmittedTrace (searchWorkOk hasAd) raised) false = false ∧
    sleepsWhileHeld (batchWorkerIterTrace s) false = false ∧
    sleepsWhileHeld (batchWorkerIterTrace sFull) false = true ∧
    sleepsWhileHeld (searchGate uid sFull).1 false = true := by
  refine ⟨?_, ?_, ?_, ?_⟩
  · cases hasAd <;> cases raised <;> decide
  · simp only [batchWorkerIterTrace, if_neg (not_le.mpr hfree)]
    exact sleepsWhileHeld_dispatch _
  · simp only [batchWorkerIterTrace, if_pos hfull]
    decide
  · simp only [searchGate, if_pos hfull]
    simp [sleepsWhileHeld]

/-- C6 witness: concrete instances of all four lock-discipline facts. -/
theorem lock_discipline_actual_witness :
    sleepsWhileHeld (searchAdmittedTrace (searchWorkOk true) false) false = false ∧
    sleepsWhileHeld (batchWorkerIterTrace ⟨0, [1, 2]⟩) false = false ∧
    sleepsWhileHeld (batchWorkerIterTrace ⟨30, []⟩) false = true ∧
    sleepsWhileHeld (searchGate 7 ⟨30, []⟩).1 false = true :=
  lock_discipline_actual true false 7 ⟨0, [1, 2]⟩ ⟨30, []⟩ (by decide) (by decide)

/-- C7 counterexample: at capacity, the gate region of `search` (bot.py
lines 1911-1927 extended by the queued branch's own statements) itself
performs Telegram message I/O — it sends the queue-position notification
and deletes it — refuting the claim that the gate performs no I/O and
leaves notification to the caller. -/
theorem gate_no_io_cex :
    ((searchGate 7 ⟨30, []⟩).1.any isPlatformCall) = true := by
  decide

/-- C7 amended: the admitted branch of the gate has no side effects beyond
incrementing `ACTIVE_USERS` and performs no platform I/O; the queued
branch's only admission-state mutation is appending the requester to the
queue, but it performs the queue-position notification, a 5 s sleep, and
the notification's deletion itself, inside the gate, rather than leaving
them to the caller; both branches always terminate with the stated
result. -/
theorem gate_effects_actual (uid : Nat) (s : BotState) :
    (s.activeUsers < (BATCH_SIZE : Int) →
      (searchGate uid s).1 = [Act.acquire, Act.incr, Act.release] ∧
      (searchGate uid s).1.any isPlatformCall = false ∧
      (searchGate uid s).2.1 = AdmitResult.admitted ∧
      (searchGate uid s).2.2 = { s with activeUsers := s.activeUsers + 1 }) ∧
    ((BATCH_SIZE : Int) ≤ s.activeUsers →
      (searchGate uid s).1
        = [Act.acquire, Act.enqueuePut uid, Act.sendMessage, Act.sleepMs 5000,
           Act.deleteMessage, Act.release] ∧
      (searchGate uid s).1.any isPlatformCall = true ∧
      (searchGate uid s).2.1 = AdmitResult.queued (s.waitingQueue.length + 1) ∧
      (searchGate uid s).2.2 = { s with waitingQueue := s.waitingQueue ++ [uid] }) := by
  constructor
  · intro h
    simp [searchGate, if_neg (not_le.mpr h), isPlatformCall]
  · intro h
    simp [searchGate, if_pos h, isPlatformCall]

/-- C7 witness: the admitted branch at a free state and the queued branch
at a full state, both at concrete inputs. -/
theorem gate_effects_actual_witness :
    (searchGate 7 ⟨0, []⟩).2.1 = AdmitResult.admitted ∧
    (searchGate 7 ⟨0, []⟩).1.any isPlatformCall = false ∧
    (searchGate 7 ⟨30, []⟩).1.any isPlatformCall = true ∧
    (searchGate 7 ⟨30, []⟩).2.1 = AdmitResult.queued 1 :=
  ⟨((gate_effects_actual 7 ⟨0, []⟩).1 (by decide)).2.2.1,
   ((gate_effects_actual 7 ⟨0, []⟩).1 (by decide)).2.1,
   ((gate_effects_actual 7 ⟨30, []⟩).2 (by decide)).2.1,
   ((gate_effects_actual 7 ⟨30, []⟩).2 (by decide)).2.2.1⟩

/-- C8: evaluating `process_user_request` shows its protected region
performs none of the request's actual work — no content lookup or
delivery, no ad, no "searching" placeholder, no cleanup scheduling, and no
injected work function: whether or not the body raises, the whole trace is
a 0.1 s placeholder sleep (or the logged error) followed by the
finalization, so a requester dispatched from the queue is never served. -/
theorem process_user_request_no_work :
    (processUserRequestTrace false).filter isRequestWork = [] ∧
    (processUserRequestTrace true).filter isRequestWork = [] ∧
    processUserRequestTrace false
      = [Act.sleepMs 100, Act.acquire, Act.decr, Act.release] ∧
    processUserRequestTrace true
      = [Act.logError, Act.acquire, Act.decr, Act.release] := by
  decide

/-- C9 counterexample: the `try/except` in `batch_worker` (bot.py lines
450-455) wraps only `get_nowait` and catches only `asyncio.QueueEmpty`;
the handoff `asyncio.create_task(...)` at line 458 is unwrapped, so a
handoff that raises while starting the unit of work for queued user 42
propagates out of the loop body instead of being swallowed. -/
theorem worker_handoff_raises_cex :
    batchWorkerIterE failingHandoff ⟨0, [42]⟩
      = Except.error (PyErr.other "task spawn failed") := by
  rfl

/-- C9 amended: the only defensive wrapping in the dispatch loop is the
`QueueEmpty` catch that ends the pop early (already part of the pop loop);
with a handoff that never raises, a loop iteration never fails and agrees
with the pure iteration, but an exception raised while starting a unit of
work propagates and stops the loop (see the counterexample). -/
theorem worker_handoff_actual (handoff : Nat → Except PyErr Unit) (s : BotState)
    (h : ∀ u : Nat, handoff u = Except.ok ()) :
    batchWorkerIterE handoff s = Except.ok (batchWorkerIter s) := by
  by_cases hc : s.activeUsers ≥ (BATCH_SIZE : Int)
  · simp [batchWorkerIterE, batchWorkerIter, if_pos hc]
  · simp [batchWorkerIterE, batchWorkerIter, if_neg hc, spawnAll_ok handoff h]

/-- C9 witness: a never-raising handoff at a concrete state. -/
theorem worker_handoff_actual_witness :
    batchWorkerIterE okHandoff ⟨0, [42]⟩ = Except.ok (batchWorkerIter ⟨0, [42]⟩) :=
  worker_handoff_actual okHandoff ⟨0, [42]⟩ (fun _ => rfl)

/-- C10: a request that fails any pre-admission check (command message,
maintenance mode for a non-owner, failed force-join, unelapsed non-owner
cooldown, or a code with no matching movie record) returns from `search`
without touching `ACTIVE_USERS` or `WAITING_QUEUE`; and control reaches
the admission gate only when the code matched an existing movie record. -/
theorem preadmission_frame (c : SearchCtx) (uid : Nat) (s : BotState) :
    (searchPre c ≠ SearchExit.reachedGate → (searchUpToGate c uid s).2 = s) ∧
    (searchPre c = SearchExit.reachedGate → c.movieFound = true) := by
  constructor
  · intro h
    cases hp : searchPre c with
    | reachedGate => exact absurd hp h
    | ignoredCommand => simp [searchUpToGate, hp]
    | maintenanceClosed => simp [searchUpToGate, hp]
    | forceJoinPrompt => simp [searchUpToGate, hp]
    | cooldownWait => simp [searchUpToGate, hp]
    | codeNotFound => simp [searchUpToGate, hp]
  · intro h
    unfold searchPre at h
    split_ifs at h
    simp_all

/-- C10 witness: a non-owner inside the cooldown window leaves the
admission state untouched. -/
theorem preadmission_frame_witness :
    (searchUpToGate ⟨false, false, false, true, some 30, true⟩ 9 ⟨0, []⟩).2
      = (⟨0, []⟩ : BotState) :=
  (preadmission_frame ⟨false, false, false, true, some 30, true⟩ 9 ⟨0, []⟩).1 (by decide)

end FreeBackup
